import Mathlib

/-!
Shallow embedding of the fgOpenGL error-handling and resource-ownership core
(`src/fgOpenGL/GLError.h`, `src/fgOpenGL/FrameBuffer.hpp`,
`src/fgOpenGL/ProgramObject.h`) together with theorems settling the
specification claims about it.

Conventions of the embedding:
- `GLenum` is modelled as `Nat`; all values that occur are below `2^32`.
- Debug-build (`_DEBUG`) semantics are modelled: the `UNCHECKED_FLAG`
  bookkeeping is present and every `assert(...)` in the source is modelled
  as an explicit boolean "asserts" observation (`true` means the assertion
  fires and aborts a debug build).
- `const char*` context strings are modelled as `Option String`
  (`none` is the null pointer).
- The anonymous union `{ const char* _context; T _result; }` of
  `GLExpected<T>` is modelled as a three-way `Payload` (uninitialized,
  result member live, context member live); code paths that leave the
  union uninitialized map to `Payload.uninit`.
- Member functions that mutate `this` become functions returning the new
  state (together with their C++ return value and assertion observations).
-/

namespace GLSpec

/-- `GL_NO_ERROR` from the OpenGL headers. -/
def GL_NO_ERROR : Nat := 0

/-- `GL_INVALID_ENUM` from the OpenGL headers. -/
def GL_INVALID_ENUM : Nat := 0x0500

/-- `GL_INVALID_VALUE` from the OpenGL headers. -/
def GL_INVALID_VALUE : Nat := 0x0501

/-- `GL_INVALID_OPERATION` from the OpenGL headers. -/
def GL_INVALID_OPERATION : Nat := 0x0502

/-- `GLError::INVALID_ERROR = ~(1 << ((sizeof(GLenum) * 8) - 1))`:
with 32-bit `GLenum` this is `0x7FFFFFFF`. -/
def INVALID_ERROR : Nat := 0x7FFFFFFF

/-- `GLError::UNCHECKED_FLAG = ~INVALID_ERROR` (debug builds only):
with 32-bit `GLenum` this is `0x80000000`. -/
def UNCHECKED_FLAG : Nat := 0x80000000

/-- `~UNCHECKED_FLAG` over 32 bits, the mask used by `_clean()`/`_checked()`;
numerically it coincides with `INVALID_ERROR`. -/
def CLEAN_MASK : Nat := 0x7FFFFFFF

/-- `GL::GLError`: an OpenGL error code plus a static context string. -/
structure GLError where
  _error : Nat
  _context : Option String
deriving Repr, DecidableEq

/-- `GLError()` default constructor, debug build:
`_error = GL_NO_ERROR | UNCHECKED_FLAG`, `_context = nullptr`. -/
def GLError.mkDefault : GLError :=
  ⟨GL_NO_ERROR ||| UNCHECKED_FLAG, none⟩

/-- `GLError(GLenum err, const char* context)`, debug build:
`_error = err | UNCHECKED_FLAG`. -/
def GLError.ofCode (err : Nat) (context : String) : GLError :=
  ⟨err ||| UNCHECKED_FLAG, some context⟩

/-- `GLError(std::in_place_t, GLenum err, const char* context)`:
stores the code verbatim, no `UNCHECKED_FLAG`. -/
def GLError.inPlace (err : Nat) (context : Option String) : GLError :=
  ⟨err, context⟩

/-- `GLError::_clean()`: the stored code with the debug flag masked off. -/
def GLError.clean (g : GLError) : Nat := g._error &&& CLEAN_MASK

/-- `GLError::_checked()`: clears the `UNCHECKED_FLAG` in place. -/
def GLError.checked (g : GLError) : GLError :=
  { g with _error := g._error &&& CLEAN_MASK }

/-- `GLError::has_error()`: calls `_checked()`, then reports whether the
clean code is neither `INVALID_ERROR` nor `GL_NO_ERROR`.
Returns (C++ return value, state after the call). -/
def GLError.has_error (g : GLError) : Bool × GLError :=
  let g' := g.checked
  (g'.clean != INVALID_ERROR && g'.clean != GL_NO_ERROR, g')

/-- `GLError::peek()`: `_clean() == GL_NO_ERROR`, no state change. -/
def GLError.peek (g : GLError) : Bool := g.clean == GL_NO_ERROR

/-- `GLError::take() &&`: if `_error == INVALID_ERROR` the state is left
alone and `{ INVALID_ERROR, nullptr }` is returned; otherwise `e = _error`
is saved, then `_error = GL_NO_ERROR; _context = nullptr;` and
`{ e, _context }` is returned — reading `_context` after it was nulled,
exactly as the source does. -/
def GLError.take (g : GLError) : (Nat × Option String) × GLError :=
  if g._error = INVALID_ERROR then
    ((INVALID_ERROR, none), g)
  else
    let e := g._error
    let g' : GLError := ⟨GL_NO_ERROR, none⟩
    ((e, g'._context), g')

/-- `~GLError()` runs `assert(!(_error & UNCHECKED_FLAG))`; this observation
is `true` iff that assertion fires in a debug build. -/
def GLError.dtorAsserts (g : GLError) : Bool :=
  g._error &&& UNCHECKED_FLAG != 0

/-- The anonymous union `{ const char* _context; T _result; }` of
`GLExpected<T>`: either uninitialized, or the `_result` member is live,
or the `_context` member is live. -/
inductive Payload (T : Type) where
  | uninit : Payload T
  | result : T → Payload T
  | context : Option String → Payload T
deriving Repr, DecidableEq

/-- Reading the `_result` union member, when it is live. -/
def Payload.getResult? {T : Type} : Payload T → Option T
  | .result v => some v
  | _ => none

/-- Reading the `_result` union member with a default for the dead cases. -/
def Payload.getResultD {T : Type} (p : Payload T) (d : T) : T :=
  match p with
  | .result v => v
  | _ => d

/-- Reading the `_context` union member (`none` when it is not live). -/
def Payload.getContext {T : Type} : Payload T → Option String
  | .context c => c
  | _ => none

/-- `GL::GLExpected<T>`: `GLenum _error` plus the union. -/
structure GLExpected (T : Type) where
  _error : Nat
  payload : Payload T
deriving Repr, DecidableEq

variable {T : Type}

/-- `GLExpected<T>::peek()`, debug build:
`(_error & ~UNCHECKED_FLAG) == GL_NO_ERROR`. -/
def GLExpected.peek (x : GLExpected T) : Bool :=
  x._error &&& CLEAN_MASK == GL_NO_ERROR

/-- `GLExpected<T>::_checked()`: clears the `UNCHECKED_FLAG` in place. -/
def GLExpected.checked (x : GLExpected T) : GLExpected T :=
  { x with _error := x._error &&& CLEAN_MASK }

/-- The clean code stored in a `GLExpected`. -/
def GLExpected.clean (x : GLExpected T) : Nat := x._error &&& CLEAN_MASK

/-- `GLExpected(U&& right)` value constructor:
`_error = GL_NO_ERROR | UNCHECKED_FLAG`, `_result` constructed. -/
def GLExpected.ofValue (v : T) : GLExpected T :=
  ⟨GL_NO_ERROR ||| UNCHECKED_FLAG, .result v⟩

/-- `GLExpected()` default constructor: `_error = INVALID_ERROR`, union
uninitialized. -/
def GLExpected.mkDefault : GLExpected T := ⟨INVALID_ERROR, .uninit⟩

/-- `GLExpected(GLError&& right)`: runs `right.take()`; stores the returned
code; if it is `INVALID_ERROR` it returns early with the union
uninitialized, otherwise stores the returned context in `_context`. -/
def GLExpected.ofError (g : GLError) : GLExpected T :=
  let ((err, ctx), _) := g.take
  if err = INVALID_ERROR then ⟨err, .uninit⟩ else ⟨err, .context ctx⟩

/-- `~GLExpected()` runs `assert(!(_error & GLError::UNCHECKED_FLAG))`
whenever `_error != INVALID_ERROR`; this observation is `true` iff that
assertion fires in a debug build. -/
def GLExpected.dtorAsserts (x : GLExpected T) : Bool :=
  x._error != INVALID_ERROR && x._error &&& UNCHECKED_FLAG != 0

/-- `GLExpected<T>::has_value()`: calls `_checked()` then returns `peek()`.
Returns (C++ return value, state after the call). -/
def GLExpected.has_value (x : GLExpected T) : Bool × GLExpected T :=
  let x' := x.checked
  (x'.peek, x')

/-- `GLExpected<T>::has_error()`:
`!has_value() && _error != GLError::INVALID_ERROR`
(with `_error` read after `has_value()` cleared the flag). -/
def GLExpected.has_error (x : GLExpected T) : Bool × GLExpected T :=
  let (hv, x') := x.has_value
  (!hv && x'._error != INVALID_ERROR, x')

/-- The `assert(peek())` guarding `GLExpected<T>::value()` (all overloads):
`true` iff the assertion fires in a debug build. -/
def GLExpected.valueAsserts (x : GLExpected T) : Bool := !x.peek

/-- `GLExpected<T>::value()`: after `assert(peek())`, returns `_result`;
modelled as reading the `_result` union member (`none` when that member is
not live, which is exactly when the assertion fired). -/
def GLExpected.value (x : GLExpected T) : Option T := x.payload.getResult?

/-- `GLExpected<T>::operator*` forwards to `value()`: same assertion. -/
def GLExpected.starAsserts (x : GLExpected T) : Bool := x.valueAsserts

/-- `GLExpected<T>::operator*` forwards to `value()`. -/
def GLExpected.star (x : GLExpected T) : Option T := x.value

/-- `GLExpected<T>::value_or(U&& right)`: `if (peek()) return _result;
return fallback;` — a `const` observer, so the state (in particular the
`UNCHECKED_FLAG`) is unchanged. Returns (C++ return value, state). -/
def GLExpected.value_or (x : GLExpected T) (fallback : T) : T × GLExpected T :=
  if x.peek then (x.payload.getResultD fallback, x) else (fallback, x)

/-- `GLExpected<T>::_grab()`:
`GLError(std::in_place, _error, peek() ? nullptr : _context)`. -/
def GLExpected.grab (x : GLExpected T) : GLError :=
  GLError.inPlace x._error (if x.peek then none else x.payload.getContext)

/-- `GLExpected<T>::take()`: `assert(_error != GLError::INVALID_ERROR)`;
`auto e = _grab();` then, if `!peek()`, sets
`_error = INVALID_ERROR; _context = nullptr;` and returns `e`.
Returns (assertion observation, C++ return value, state after). -/
def GLExpected.take (x : GLExpected T) : Bool × GLError × GLExpected T :=
  let asserts := x._error == INVALID_ERROR
  let e := x.grab
  if !x.peek then (asserts, e, ⟨INVALID_ERROR, .context none⟩)
  else (asserts, e, x)

/-- `GLExpected(GLExpected&& right)` move constructor: copies `_error`;
if it is `INVALID_ERROR`, returns early (union uninitialized); if
`peek()`, move-constructs `_result` from `right._result` (leaving
`right._error` untouched); otherwise copies `_context` and sets
`right._context = 0; right._error = INVALID_ERROR;`.
Returns (constructed object, moved-from source). -/
def GLExpected.moveCtor (right : GLExpected T) : GLExpected T × GLExpected T :=
  if right._error = INVALID_ERROR then
    (⟨right._error, .uninit⟩, right)
  else if right.peek then
    (⟨right._error, right.payload⟩, right)
  else
    (⟨right._error, right.payload⟩, ⟨INVALID_ERROR, .context none⟩)

/-- `GLExpected::operator=(GLExpected&& right)`: first runs
`this->~GLExpected()` (whose debug assertion may fire), then performs
exactly the moves of the move constructor.
Returns (destructor assertion observation, new `*this`, moved-from source). -/
def GLExpected.moveAssign (self right : GLExpected T) :
    Bool × GLExpected T × GLExpected T :=
  let asserts := self.dtorAsserts
  let (fresh, src) := GLExpected.moveCtor right
  (asserts, fresh, src)

/-- Claim C2: for every `GLExpected<T>` that holds an error, `take()`
extracts the stored error (code and stored context) and transitions the
Result to the consumed/invalid sentinel (`_error = INVALID_ERROR`);
calling `take()` a second time on the same Result returns the invalid
sentinel (`INVALID_ERROR`) — and is flagged by the debug assertion. -/
theorem C2_take_twice_returns_invalid_sentinel (x : GLExpected T)
    (c : Option String)
    (herr : x._error &&& CLEAN_MASK ≠ 0)
    (hinv : x._error ≠ INVALID_ERROR)
    (hpay : x.payload = .context c) :
    (x.take).1 = false ∧
    (x.take).2.1 = GLError.inPlace x._error c ∧
    (x.take).2.2 = ⟨INVALID_ERROR, .context none⟩ ∧
    ((x.take).2.2.take).2.1._error = INVALID_ERROR ∧
    ((x.take).2.2.take).2.2._error = INVALID_ERROR ∧
    ((x.take).2.2.take).1 = true := by
  have hpeek : x.peek = false := by
    simp only [GLExpected.peek, GL_NO_ERROR, beq_eq_false_iff_ne, ne_eq]
    exact herr
  have h1 : x.take = (false, GLError.inPlace x._error c,
      ⟨INVALID_ERROR, .context none⟩) := by
    simp [GLExpected.take, GLExpected.grab, hpeek, hpay, Payload.getContext,
      hinv]
  have hp : (⟨INVALID_ERROR, Payload.context none⟩ : GLExpected T).peek
      = false := by
    simp only [GLExpected.peek]
    decide
  have h2 : (⟨INVALID_ERROR, Payload.context none⟩ : GLExpected T).take =
      (true, ⟨INVALID_ERROR, none⟩, ⟨INVALID_ERROR, .context none⟩) := by
    simp [GLExpected.take, GLExpected.grab, hp, Payload.getContext,
      GLError.inPlace]
  refine ⟨?_, ?_, ?_, ?_, ?_, ?_⟩ <;> simp [h1, h2]

/-- Claim C2 witness: instantiated at a Result holding `GL_INVALID_ENUM`. -/
theorem C2_take_twice_returns_invalid_sentinel_witness :
    ((⟨GL_INVALID_ENUM ||| UNCHECKED_FLAG,
        .context (some "glBindFramebuffer")⟩ :
      GLExpected Nat).take).2.2 = ⟨INVALID_ERROR, .context none⟩ :=
  (C2_take_twice_returns_invalid_sentinel
    ⟨GL_INVALID_ENUM ||| UNCHECKED_FLAG, .context (some "glBindFramebuffer")⟩
    (some "glBindFramebuffer") (by decide) (by decide) rfl).2.2.1

/-- Claim C3 counterexample: a `GLExpected<T>` constructed from a value and
destroyed without ever being inspected DOES trigger the debug assertion
(the value constructor sets `GL_NO_ERROR | UNCHECKED_FLAG` and the
destructor asserts `!(_error & UNCHECKED_FLAG)` for every non-sentinel
state), contradicting the claim that a never-inspected value-holding
Result does not assert. -/
theorem C3_value_unchecked_dtor_counterexample :
    (GLExpected.ofValue (5 : Nat)).dtorAsserts = true := by decide

/-- Claim C3 (amended): in debug builds, destroying ANY never-inspected
Result whose state is not the consumed sentinel triggers the assertion —
both a Result constructed from an (unchecked) error and a Result
constructed from a value. -/
theorem C3_unchecked_dtor_asserts (v : T) (g : GLError)
    (h1 : g._error ≠ INVALID_ERROR)
    (h2 : g._error &&& UNCHECKED_FLAG ≠ 0) :
    (GLExpected.ofError (T := T) g).dtorAsserts = true ∧
    (GLExpected.ofValue v).dtorAsserts = true := by
  constructor
  · simp [GLExpected.ofError, GLError.take, GLExpected.dtorAsserts, h1, h2]
  · simp only [GLExpected.ofValue, GLExpected.dtorAsserts]
    decide

/-- Claim C3 witness: instantiated at value `0` and a `GL_INVALID_ENUM`
error. -/
theorem C3_unchecked_dtor_asserts_witness :
    (GLExpected.ofError (T := Nat)
        (GLError.ofCode GL_INVALID_ENUM "glGetError")).dtorAsserts = true ∧
    (GLExpected.ofValue (0 : Nat)).dtorAsserts = true :=
  C3_unchecked_dtor_asserts 0 (GLError.ofCode GL_INVALID_ENUM "glGetError")
    (by decide) (by decide)

/-- Claim C4 (code bug): `GLError::take()` nulls `_context` before
returning it, so constructing a `GLExpected` from an error with code
`GL_INVALID_ENUM` and context `"glTexImage2D"` preserves the error code
but stores a NULL context — the provenance text is lost, contrary to the
claim (and to the evident intent of `take()`, which saves the code into a
local precisely so it survives the clearing). -/
theorem C4_context_lost_bug :
    (GLExpected.ofError (T := Nat)
        (GLError.ofCode GL_INVALID_ENUM "glTexImage2D")).clean
      = GL_INVALID_ENUM ∧
    (GLExpected.ofError (T := Nat)
        (GLError.ofCode GL_INVALID_ENUM "glTexImage2D")).payload
      = .context none := by
  constructor <;> decide

/-- Masking with `CLEAN_MASK` is idempotent. -/
theorem clean_land_idem (a : Nat) :
    a &&& CLEAN_MASK &&& CLEAN_MASK = a &&& CLEAN_MASK := by
  have h : CLEAN_MASK &&& CLEAN_MASK = CLEAN_MASK := by decide
  rw [Nat.land_assoc, h]

/-- `_checked()` does not change the result of `peek()`. -/
theorem peek_checked (x : GLExpected T) : (x.checked).peek = x.peek := by
  simp only [GLExpected.peek, GLExpected.checked, clean_land_idem]

/-- `peek()` on an explicit record, unfolded. -/
theorem peek_mk (a : Nat) (p : Payload T) :
    (⟨a, p⟩ : GLExpected T).peek = (a &&& CLEAN_MASK == 0) := rfl

/-- A Result whose `peek()` is `true` is not the consumed sentinel. -/
theorem peek_true_ne_invalid (x : GLExpected T) (h : x.peek = true) :
    x._error ≠ INVALID_ERROR := by
  intro hinv
  rw [GLExpected.peek, hinv] at h
  exact absurd h (by decide)

/-- Claim C8: for every `GLExpected<T>` in the holds-error state, `value()`
and `operator*` trigger the `assert(peek())` (and the `_result` union
member is not live, so no payload is returned); the same holds after
`has_error()` has reported `true`. -/
theorem C8_value_asserts_on_error (x : GLExpected T) (c : Option String)
    (herr : x._error &&& CLEAN_MASK ≠ 0)
    (hclean : x._error &&& CLEAN_MASK ≠ INVALID_ERROR)
    (hpay : x.payload = .context c) :
    x.valueAsserts = true ∧ x.value = none ∧
    x.starAsserts = true ∧ x.star = none ∧
    (x.has_error).1 = true ∧
    (x.has_error).2.valueAsserts = true ∧ (x.has_error).2.value = none := by
  have hpeek : x.peek = false := by
    simp only [GLExpected.peek, GL_NO_ERROR, beq_eq_false_iff_ne, ne_eq]
    exact herr
  have hpeek' : (x.checked).peek = false := (peek_checked x).trans hpeek
  have hpeek2 : (⟨x._error &&& CLEAN_MASK, Payload.context c⟩ :
      GLExpected T).peek = false := by
    simp only [GLExpected.peek, clean_land_idem, GL_NO_ERROR,
      beq_eq_false_iff_ne, ne_eq]
    exact herr
  refine ⟨?_, ?_, ?_, ?_, ?_, ?_, ?_⟩ <;>
    simp [GLExpected.valueAsserts, GLExpected.value, GLExpected.star,
      GLExpected.starAsserts, GLExpected.has_error, GLExpected.has_value,
      hpeek, hpeek', hpeek2, hpay, Payload.getResult?, GLExpected.checked,
      hclean]

/-- Claim C8 witness: instantiated at a Result holding
`GL_INVALID_OPERATION`. -/
theorem C8_value_asserts_on_error_witness :
    (⟨GL_INVALID_OPERATION ||| UNCHECKED_FLAG,
        .context (some "glDrawArrays")⟩ : GLExpected Nat).valueAsserts
      = true :=
  (C8_value_asserts_on_error
    ⟨GL_INVALID_OPERATION ||| UNCHECKED_FLAG, .context (some "glDrawArrays")⟩
    (some "glDrawArrays") (by decide) (by decide) rfl).1

/-- Claim C9 counterexample: `value_or` is a `const` observer that never
calls `_checked()`, so it does NOT count as a check: after calling
`value_or` on an unchecked error-holding Result, destroying it still
fires the debug assertion — contradicting the claim that the call clears
the `UNCHECKED_FLAG` so that subsequent destruction does not assert. -/
theorem C9_value_or_not_a_check_counterexample :
    (((⟨GL_INVALID_VALUE ||| UNCHECKED_FLAG,
          .context (some "glCreateProgram")⟩ :
        GLExpected Nat).value_or 7).2).dtorAsserts = true := by decide

/-- Claim C9 (amended): `value_or(fallback)` never asserts — it returns the
held value when the Result holds a value and the fallback otherwise — but
it does NOT count as a check: the Result's state (in particular the
`UNCHECKED_FLAG`) is left entirely unchanged, so destroying a
still-unchecked Result afterwards does assert in debug builds. -/
theorem C9_value_or_returns_value_or_fallback (x : GLExpected T)
    (fallback v : T) :
    (x.peek = true → x.payload = .result v →
      (x.value_or fallback).1 = v) ∧
    (x.peek = false → (x.value_or fallback).1 = fallback) ∧
    (x.value_or fallback).2 = x := by
  refine ⟨?_, ?_, ?_⟩
  · intro hpk hpay
    simp [GLExpected.value_or, hpk, hpay, Payload.getResultD]
  · intro hpk
    simp [GLExpected.value_or, hpk]
  · by_cases hpk : x.peek = true <;> simp [GLExpected.value_or, hpk]

/-- Claim C9 witness: instantiated at a value-holding Result and at an
error-holding Result. -/
theorem C9_value_or_returns_value_or_fallback_witness :
    ((GLExpected.ofValue (3 : Nat)).value_or 7).1 = 3 ∧
    ((⟨GL_INVALID_VALUE ||| UNCHECKED_FLAG, .context none⟩ :
        GLExpected Nat).value_or 7).1 = 7 :=
  ⟨(C9_value_or_returns_value_or_fallback (GLExpected.ofValue 3) 7 3).1
      (by decide) rfl,
   (C9_value_or_returns_value_or_fallback
      ⟨GL_INVALID_VALUE ||| UNCHECKED_FLAG, .context none⟩ 7 7).2.1
      (by decide)⟩

/-- Claim C10: moving from a `GLExpected<T>` that holds a value transfers
the value but leaves the source's `_error` untouched (the source is NOT
reset to the consumed sentinel, still reports holds-value, and — if it was
unchecked — destroying it uninspected still asserts); only an
error-holding source is transitioned to the consumed sentinel.
`operator=(GLExpected&&)` performs exactly the moves of the move
constructor after destroying the target, so the same holds for it. -/
theorem C10_move_leaves_value_source (x self : GLExpected T) :
    (x.peek = true →
      (x.moveCtor).1 = ⟨x._error, x.payload⟩ ∧
      (x.moveCtor).2 = x ∧
      ((x.moveCtor).2.has_value).1 = true ∧
      (x._error &&& UNCHECKED_FLAG ≠ 0 →
        (x.moveCtor).2.dtorAsserts = true)) ∧
    (x.peek = false → x._error ≠ INVALID_ERROR →
      (x.moveCtor).1 = ⟨x._error, x.payload⟩ ∧
      (x.moveCtor).2 = ⟨INVALID_ERROR, .context none⟩ ∧
      (x.moveCtor).2.dtorAsserts = false) ∧
    (GLExpected.moveAssign self x).2 = x.moveCtor := by
  refine ⟨?_, ?_, rfl⟩
  · intro hpk
    have hinv := peek_true_ne_invalid x hpk
    have hmv : x.moveCtor = (⟨x._error, x.payload⟩, x) := by
      simp [GLExpected.moveCtor, hinv, hpk]
    refine ⟨by rw [hmv], by rw [hmv], ?_, ?_⟩
    · rw [hmv]
      simp only [GLExpected.has_value, (peek_checked x)]
      exact hpk
    · intro hflag
      rw [hmv]
      simp [GLExpected.dtorAsserts, hinv, hflag]
  · intro hpk hinv
    have hmv : x.moveCtor =
        (⟨x._error, x.payload⟩, ⟨INVALID_ERROR, .context none⟩) := by
      simp [GLExpected.moveCtor, hinv, hpk]
    refine ⟨by rw [hmv], by rw [hmv], ?_⟩
    rw [hmv]
    simp [GLExpected.dtorAsserts]

/-- Claim C10 witness: instantiated at a value-holding Result (source keeps
its state and stays assert-armed) and implicitly, via the theorem, at an
arbitrary target of move assignment. -/
theorem C10_move_leaves_value_source_witness :
    ((GLExpected.ofValue (9 : Nat)).moveCtor).2 = GLExpected.ofValue 9 ∧
    ((GLExpected.ofValue (9 : Nat)).moveCtor).2.dtorAsserts = true :=
  ⟨((C10_move_leaves_value_source (GLExpected.ofValue 9)
      (GLExpected.mkDefault)).1 (by decide)).2.1,
   ((C10_move_leaves_value_source (GLExpected.ofValue 9)
      (GLExpected.mkDefault)).1 (by decide)).2.2.2 (by decide)⟩

/-- The three mutually exclusive abstract states of a Result in the spec's
data model: `holds-value(T)`, `holds-error(code, context-text)`, and the
`consumed/invalid` sentinel. -/
inductive RState (T : Type) where
  | value : T → RState T
  | error : Nat → Option String → RState T
  | consumed : RState T
deriving Repr, DecidableEq

/-- The abstract state of a `GLExpected<T>`: the consumed sentinel when
`_error == INVALID_ERROR`; otherwise `holds-value` with the live `_result`
when `peek()`, else `holds-error` with the clean code and the live
`_context`. (A value-bit-pattern whose `_result` member is not live is
unreachable; it is mapped to `consumed`.) -/
def GLExpected.state (x : GLExpected T) : RState T :=
  if x._error = INVALID_ERROR then .consumed
  else if x.peek then
    match x.payload.getResult? with
    | some v => .value v
    | none => .consumed
  else .error (x._error &&& CLEAN_MASK) x.payload.getContext

/-- One `co_await` step of a `GLExpected` coroutine, from
`GLExpected<T>::Awaiter` and `GLExpected<T>::promise_type`:
`operator co_await` wraps the awaited Result in an `Awaiter`;
`await_ready` asks the awaited Result whether it holds a value (the
source's `is_value()`, the state query modelled by `has_value()`); when
ready, `await_resume` returns `value()` and the coroutine body — the
continuation `k` — runs on it; otherwise `await_suspend` assigns the
awaited Result into the caller's own Result
(`*handle.promise().expected = expected`, the caller's Result being the
default-initialized object tied to the promise) and destroys the
coroutine, so `k` is never invoked. -/
def GLExpected.coAwait (x : GLExpected T) (k : T → GLExpected T) :
    GLExpected T :=
  let (ready, x') := x.has_value
  if ready then
    match x'.payload.getResult? with
    | some v => k v
    | none => GLExpected.mkDefault
  else
    (GLExpected.moveAssign GLExpected.mkDefault x').2.1

/-- Modelled from the spec (§4.1, §9 — the comparison point for the
refinement claim C5): the synchronous monadic bind / and-then combinator
on abstract Results: a held value feeds the continuation, an error
short-circuits and propagates unchanged, the consumed sentinel stays
consumed. -/
def RState.andThen {T : Type} : RState T → (T → RState T) → RState T
  | .value v, k => k v
  | .error e c, _ => .error e c
  | .consumed, _ => .consumed

/-- Claim C5: awaiting a Result succeeds immediately with the value when it
holds a value and otherwise short-circuits, propagating the error into the
caller's own Result without invoking the continuation; on the abstract
state this is exactly the synchronous monadic bind over Results. -/
theorem C5_coawait_is_monadic_bind (x : GLExpected T) (k : T → GLExpected T)
    (hclean : x._error ≠ INVALID_ERROR →
      x._error &&& CLEAN_MASK ≠ INVALID_ERROR) :
    (GLExpected.coAwait x k).state
      = (x.state).andThen (fun v => (k v).state) ∧
    (∀ v, x.peek = true → x.payload = .result v →
      GLExpected.coAwait x k = k v) ∧
    (x.peek = false →
      ∀ k₂ : T → GLExpected T, GLExpected.coAwait x k
        = GLExpected.coAwait x k₂) := by
  have hpc := peek_checked x
  by_cases hinv : x._error = INVALID_ERROR
  · have hpk : x.peek = false := by
      rw [GLExpected.peek, hinv]
      decide
    have hpk' : (x.checked).peek = false := hpc.trans hpk
    have hinv' : (x.checked)._error = INVALID_ERROR := by
      simp only [GLExpected.checked, hinv]
      decide
    have hca : GLExpected.coAwait x k = ⟨x.checked._error, .uninit⟩ := by
      simp [GLExpected.coAwait, GLExpected.has_value, hpk',
        GLExpected.moveAssign, GLExpected.moveCtor, hinv']
    refine ⟨?_, ?_, ?_⟩
    · rw [hca, hinv']
      simp [GLExpected.state, hinv, RState.andThen]
    · intro v hpkv
      rw [hpkv] at hpk
      exact absurd hpk (by decide)
    · intro _ k₂
      have hca₂ : GLExpected.coAwait x k₂ = ⟨x.checked._error, .uninit⟩ := by
        simp [GLExpected.coAwait, GLExpected.has_value, hpk',
          GLExpected.moveAssign, GLExpected.moveCtor, hinv']
      rw [hca, hca₂]
  · by_cases hpk : x.peek = true
    · have hpk' : (x.checked).peek = true := hpc.trans hpk
      have hz : x._error &&& CLEAN_MASK = 0 := by
        have h := hpk
        rw [GLExpected.peek, GL_NO_ERROR] at h
        exact beq_iff_eq.mp h
      have hpkz : (⟨x._error &&& CLEAN_MASK, x.payload⟩ :
          GLExpected T).peek = true := by
        rw [peek_mk, clean_land_idem, hz]
        rfl
      have hca : GLExpected.coAwait x k =
          match x.payload.getResult? with
          | some v => k v
          | none => GLExpected.mkDefault := by
        simp [GLExpected.coAwait, GLExpected.has_value, hpk',
          GLExpected.checked, hpkz]
      refine ⟨?_, ?_, ?_⟩
      · rw [hca]
        cases hpay : x.payload.getResult? with
        | some v => simp [GLExpected.state, hinv, hpk, hpay, RState.andThen]
        | none =>
          simp [GLExpected.state, hinv, hpk, hpay, RState.andThen,
            GLExpected.mkDefault]
      · intro v hpkv hpay
        rw [hca, hpay]
        rfl
      · intro hpkf
        rw [hpk] at hpkf
        exact absurd hpkf (by decide)
    · have hpkf : x.peek = false := by
        cases h : x.peek
        · rfl
        · exact absurd h hpk
      have hpk' : (x.checked).peek = false := hpc.trans hpkf
      have hnz : x._error &&& CLEAN_MASK ≠ 0 := by
        intro h
        apply hpk
        rw [GLExpected.peek, GL_NO_ERROR, h]
        rfl
      have hcm : x._error &&& CLEAN_MASK ≠ INVALID_ERROR := hclean hinv
      have hpkc : (⟨x._error &&& CLEAN_MASK, x.payload⟩ :
          GLExpected T).peek = false := by
        rw [peek_mk, clean_land_idem]
        simp only [beq_eq_false_iff_ne, ne_eq]
        exact hnz
      have hca : GLExpected.coAwait x k =
          ⟨x._error &&& CLEAN_MASK, x.payload⟩ := by
        simp [GLExpected.coAwait, GLExpected.has_value, hpk',
          GLExpected.moveAssign, GLExpected.moveCtor, hcm, hpkc,
          GLExpected.checked]
      refine ⟨?_, ?_, ?_⟩
      · rw [hca]
        simp [GLExpected.state, hcm, hinv, hpkc, hpkf,
          clean_land_idem, RState.andThen]
      · intro v hpkv
        rw [hpkv] at hpkf
        exact absurd hpkf (by decide)
      · intro _ k₂
        have hca₂ : GLExpected.coAwait x k₂ =
            ⟨x._error &&& CLEAN_MASK, x.payload⟩ := by
          simp [GLExpected.coAwait, GLExpected.has_value, hpk',
            GLExpected.moveAssign, GLExpected.moveCtor, hcm, hpkc,
            GLExpected.checked]
        rw [hca, hca₂]

/-- Claim C5 witness: a value-holding Result resumes the continuation with
its value; an error-holding Result short-circuits regardless of the
continuation. -/
theorem C5_coawait_is_monadic_bind_witness :
    GLExpected.coAwait (GLExpected.ofValue (2 : Nat))
        (fun v => GLExpected.ofValue (v + 1))
      = GLExpected.ofValue 3 :=
  ((C5_coawait_is_monadic_bind (GLExpected.ofValue (2 : Nat))
      (fun v => GLExpected.ofValue (v + 1))
      (fun _ => by decide)).2.1 2 (by decide) rfl)

/-- Modelled from the spec: the `Owned handle` / `Ref` / `GLRef` base class
(`GLRef.h`, included by `ProgramObject.h` and `FrameBuffer.hpp`) is not
under `src/`; only its typed instantiations are declared there. Per
§3/§4.2 it wraps a native resource id (`0`/null meaning empty), with a
validity predicate and a release function injected at the type level. -/
structure Ref where
  id : Nat
deriving Repr, DecidableEq

/-- Modelled from the spec (§4.2): `is_valid()` is true iff the wrapped id
is non-null and the validity predicate accepts it. -/
def Ref.is_valid (validity : Nat → Bool) (r : Ref) : Bool :=
  r.id != 0 && validity r.id

/-- Modelled from the spec (§4.2): the destructor invokes release exactly
once if `is_valid()`, else does nothing; the returned list is the sequence
of ids passed to the injected release function. -/
def Ref.dtor (validity : Nat → Bool) (r : Ref) : List Nat :=
  if r.is_valid validity then [r.id] else []

/-- Modelled from the spec (§4.2): move construction transfers the id and
nulls the source. Returns (constructed handle, moved-from source). -/
def Ref.moveCtor (right : Ref) : Ref × Ref := (⟨right.id⟩, ⟨0⟩)

/-- Modelled from the spec (§4.2): move assignment releases the target's
current handle (its destructor semantics), then transfers the id and
nulls the source. Returns (released ids, new target, moved-from source). -/
def Ref.moveAssign (validity : Nat → Bool) (self right : Ref) :
    List Nat × Ref × Ref :=
  (self.dtor validity, ⟨right.id⟩, ⟨0⟩)

/-- A chain of `k` successive move constructions out of a handle:
returns the list of moved-from husks, in order, and the final live
handle. -/
def Ref.moveChain : Ref → Nat → List Ref × Ref
  | r, 0 => ([], r)
  | r, k + 1 =>
    let (fresh, movedFrom) := Ref.moveCtor r
    let (ms, final) := Ref.moveChain fresh k
    (movedFrom :: ms, final)

/-- Destroying a list of handles in order: the concatenation of the ids
each destructor passes to the release function. -/
def destroyAll (validity : Nat → Bool) : List Ref → List Nat
  | [] => []
  | r :: rs => Ref.dtor validity r ++ destroyAll validity rs

/-- A chain of `k` moves turns the source into `k` null husks and hands
the original handle through unchanged. -/
theorem moveChain_eq (r : Ref) (k : Nat) :
    Ref.moveChain r k = (List.replicate k ⟨0⟩, r) := by
  induction k generalizing r with
  | zero => rfl
  | succ k ih =>
    simp [Ref.moveChain, Ref.moveCtor, ih, List.replicate_succ]

/-- Destroying null husks releases nothing. -/
theorem destroyAll_replicate_null (validity : Nat → Bool) (k : Nat)
    (l : List Ref) :
    destroyAll validity (List.replicate k ⟨0⟩ ++ l)
      = destroyAll validity l := by
  induction k with
  | zero => rfl
  | succ k ih =>
    rw [List.replicate_succ, List.cons_append]
    have h : destroyAll validity (⟨0⟩ :: (List.replicate k ⟨0⟩ ++ l)) =
        Ref.dtor validity ⟨0⟩
          ++ destroyAll validity (List.replicate k ⟨0⟩ ++ l) := rfl
    rw [h, ih]
    simp [Ref.dtor, Ref.is_valid]

/-- Claim C1 (spec-modelled): across an Owned handle's whole lifetime —
creation with a valid native id, any chain of `k` move
constructions/assignments, then destruction of every handle object
involved — the injected release function is invoked exactly once (the
release log is exactly `[v]`); every moved-from handle holds the null id
and its destructor performs no release; and move assignment into a
moved-from (null) target likewise releases nothing at the transfer. -/
theorem C1_release_exactly_once (validity : Nat → Bool) (v k : Nat)
    (hv : v ≠ 0) :
    destroyAll validity
        ((Ref.moveChain ⟨v⟩ k).1 ++ [(Ref.moveChain ⟨v⟩ k).2])
      = (if validity v then [v] else []) ∧
    (∀ m ∈ (Ref.moveChain ⟨v⟩ k).1,
      m.id = 0 ∧ Ref.dtor validity m = []) ∧
    (Ref.moveAssign validity ⟨0⟩ ⟨v⟩ = ([], ⟨v⟩, ⟨0⟩)) := by
  rw [moveChain_eq]
  refine ⟨?_, ?_, ?_⟩
  · rw [destroyAll_replicate_null]
    by_cases hval : validity v = true <;>
      simp [destroyAll, Ref.dtor, Ref.is_valid, hv, hval]
  · intro m hm
    rw [List.eq_of_mem_replicate hm]
    exact ⟨rfl, by simp [Ref.dtor, Ref.is_valid]⟩
  · simp [Ref.moveAssign, Ref.dtor, Ref.is_valid]

/-- Claim C1 witness: a handle with id 7, validity `id ≠ 0`, moved three
times: the release log of destroying all four handle objects is `[7]`. -/
theorem C1_release_exactly_once_witness :
    destroyAll (fun i => i != 0)
        ((Ref.moveChain ⟨7⟩ 3).1 ++ [(Ref.moveChain ⟨7⟩ 3).2])
      = (if (fun i => i != 0) 7 then [7] else []) :=
  (C1_release_exactly_once (fun i => i != 0) 7 3 (by decide)).1

/-- Modelled from the spec: the driver state visible to
`FrameBuffer::create` (`FrameBuffer.cpp` is not under `src/`):
the driver-reported maximum number of simultaneous color attachments, a
fresh-id counter, and the set of currently allocated (unreleased)
framebuffer ids. -/
structure FBDriver where
  maxColorAttachments : Nat
  nextId : Nat
  live : List Nat
deriving Repr, DecidableEq

/-- Modelled from the spec: `glGenFramebuffers(1, &fbgl)` — allocates one
fresh nonzero framebuffer id. -/
def FBDriver.genFramebuffer (d : FBDriver) : Nat × FBDriver :=
  (d.nextId + 1,
   { d with nextId := d.nextId + 1, live := (d.nextId + 1) :: d.live })

/-- Modelled from the spec: `glDeleteFramebuffers(1, &fb)` — releases the
framebuffer id. -/
def FBDriver.deleteFramebuffer (d : FBDriver) (fb : Nat) : FBDriver :=
  { d with live := d.live.erase fb }

/-- The first non-`GL_NO_ERROR` code among the per-image attach-step
driver outcomes, if any. -/
def firstError : List Nat → Option Nat
  | [] => none
  | e :: rest => if e = GL_NO_ERROR then firstError rest else some e

/-- The native framebuffer handle held by a created `FrameBuffer`. -/
structure FrameBuffer where
  id : Nat
deriving Repr, DecidableEq

/-- Modelled from the spec (§4.3): `FrameBuffer::create` allocates one
native framebuffer object, then — for a color attachment type — reports a
driver error (not an assertion) if the image count exceeds the driver's
maximum simultaneous color attachments, and otherwise attaches each
image, failing on the first attach step the driver rejects
(`attachErrors` are the driver outcomes of the successive attach calls);
on every failure the allocated framebuffer handle is released before
returning. Returns (driver state after, the `Result<FrameBuffer>`). -/
def FrameBuffer.create (d : FBDriver) (isColorType : Bool)
    (imageCount : Nat) (attachErrors : List Nat) :
    FBDriver × GLExpected FrameBuffer :=
  let (fb, d1) := d.genFramebuffer
  if isColorType && decide (imageCount > d.maxColorAttachments) then
    (d1.deleteFramebuffer fb,
     GLExpected.ofError (GLError.ofCode GL_INVALID_VALUE
       "FrameBuffer::create"))
  else
    match firstError attachErrors with
    | some e =>
      (d1.deleteFramebuffer fb,
       GLExpected.ofError (GLError.ofCode e "glFramebufferTexture"))
    | none => (d1, GLExpected.ofValue ⟨fb⟩)

/-- A value-holding Result does not report an error. -/
theorem has_error_ofValue (v : T) :
    ((GLExpected.ofValue v).has_error).1 = false := by
  simp only [GLExpected.has_error, GLExpected.has_value, GLExpected.ofValue,
    GLExpected.checked, GLExpected.peek]
  decide

/-- Claim C6 (spec-modelled): `FrameBuffer::create` called with an image
count exceeding the driver's maximum simultaneous color attachments (for
a color attachment type) returns a reported driver error, and on ANY
failure of `create` the already-allocated framebuffer handle has been
released before returning, so the driver's live-handle set is exactly
what it was before the call — a failed create never leaks. -/
theorem C6_create_overflow_error_and_no_leak (d : FBDriver)
    (imageCount : Nat) (attachErrors : List Nat)
    (hover : imageCount > d.maxColorAttachments) :
    (((FrameBuffer.create d true imageCount attachErrors).2.has_error).1
        = true) ∧
    ((FrameBuffer.create d true imageCount attachErrors).1.live
        = d.live) ∧
    (∀ (d₂ : FBDriver) (isColorType : Bool) (ic : Nat) (errs : List Nat),
      ((FrameBuffer.create d₂ isColorType ic errs).2.has_error).1 = true →
        (FrameBuffer.create d₂ isColorType ic errs).1.live = d₂.live) := by
  have hcreate : FrameBuffer.create d true imageCount attachErrors =
      ((d.genFramebuffer.2).deleteFramebuffer d.genFramebuffer.1,
       GLExpected.ofError (GLError.ofCode GL_INVALID_VALUE
         "FrameBuffer::create")) := by
    simp [FrameBuffer.create, hover]
  refine ⟨?_, ?_, ?_⟩
  · rw [hcreate]
    exact (by decide :
      ((GLExpected.ofError (T := FrameBuffer) (GLError.ofCode
          GL_INVALID_VALUE "FrameBuffer::create")).has_error).1 = true)
  · rw [hcreate]
    simp [FBDriver.genFramebuffer, FBDriver.deleteFramebuffer]
  · intro d₂ isColorType ic errs herr
    by_cases hchk : (isColorType && decide (ic > d₂.maxColorAttachments))
        = true
    · simp [FrameBuffer.create, hchk, FBDriver.genFramebuffer,
        FBDriver.deleteFramebuffer]
    · cases hfe : firstError errs with
      | some e =>
        simp [FrameBuffer.create, hchk, hfe, FBDriver.genFramebuffer,
          FBDriver.deleteFramebuffer]
      | none =>
        rw [show FrameBuffer.create d₂ isColorType ic errs =
            (d₂.genFramebuffer.2, GLExpected.ofValue ⟨d₂.genFramebuffer.1⟩)
          from by simp [FrameBuffer.create, hchk, hfe]] at herr
        rw [has_error_ofValue] at herr
        exact absurd herr (by decide)

/-- Claim C6 witness: a driver reporting at most 4 color attachments, a
create with 5 images: error reported and the live-handle set unchanged. -/
theorem C6_create_overflow_error_and_no_leak_witness :
    (((FrameBuffer.create ⟨4, 10, [3]⟩ true 5 []).2.has_error).1 = true) ∧
    ((FrameBuffer.create ⟨4, 10, [3]⟩ true 5 []).1.live = [3]) :=
  ⟨(C6_create_overflow_error_and_no_leak ⟨4, 10, [3]⟩ 5 [] (by decide)).1,
   (C6_create_overflow_error_and_no_leak ⟨4, 10, [3]⟩ 5 [] (by decide)).2.1⟩

/-- Modelled from the spec: the `ProgramObject` state visible to `link()`
(`ProgramObject.cpp` is not under `src/`): the owned native program id
(`0` = null), the number of successfully attached shader stages, and the
link state. -/
structure ProgramObject where
  id : Nat
  attachedShaders : Nat
  linked : Bool
deriving Repr, DecidableEq

/-- Modelled from the spec (§4.4): `is_valid()` reports handle validity
(not link success). -/
def ProgramObject.is_valid (p : ProgramObject) : Bool := p.id != 0

/-- Modelled from the spec (§3, §4.4): `link()` may only be called after at
least one shader has been attached — calling it with no attached shader
returns an error Result and leaves the program untouched; otherwise the
driver's link outcome (`linkError`, `GL_NO_ERROR` on success) decides
between marking the program linked and returning the driver's error with
the program still a valid, destructible handle but not linked
(unusable for draw calls). -/
def ProgramObject.link (p : ProgramObject) (linkError : Nat) :
    GLExpected Unit × ProgramObject :=
  if p.attachedShaders = 0 then
    (GLExpected.ofError (GLError.ofCode GL_INVALID_OPERATION
       "ProgramObject::link"), p)
  else if linkError = GL_NO_ERROR then
    (GLExpected.ofValue (), { p with linked := true })
  else
    (GLExpected.ofError (GLError.ofCode linkError "glLinkProgram"),
     { p with linked := false })

/-- Claim C7 (spec-modelled): `link()` called on a valid program with no
prior successful `attach()` returns an error Result, and afterwards
`is_valid()` still reports `true` (the handle is unchanged and still
destructible), while the program is not linked (unusable for drawing). -/
theorem C7_link_without_attach_errors_keeps_valid (p : ProgramObject)
    (linkError : Nat) (hvalid : p.is_valid = true)
    (hnone : p.attachedShaders = 0) (hlk : p.linked = false) :
    (((p.link linkError).1.has_error).1 = true) ∧
    ((p.link linkError).2.is_valid = true) ∧
    ((p.link linkError).2 = p) ∧
    ((p.link linkError).2.linked = false) := by
  have hlink : p.link linkError =
      (GLExpected.ofError (GLError.ofCode GL_INVALID_OPERATION
         "ProgramObject::link"), p) := by
    simp [ProgramObject.link, hnone]
  refine ⟨?_, ?_, ?_, ?_⟩
  · rw [hlink]
    exact (by decide :
      ((GLExpected.ofError (T := Unit) (GLError.ofCode
          GL_INVALID_OPERATION "ProgramObject::link")).has_error).1 = true)
  · rw [hlink]
    exact hvalid
  · rw [hlink]
  · rw [hlink]
    exact hlk

/-- Claim C7 witness: a freshly created program (id 5, nothing attached):
`link()` errors and the handle stays valid. -/
theorem C7_link_without_attach_errors_keeps_valid_witness :
    ((((⟨5, 0, false⟩ : ProgramObject).link GL_NO_ERROR).1.has_error).1
        = true) ∧
    (((⟨5, 0, false⟩ : ProgramObject).link GL_NO_ERROR).2.is_valid
        = true) :=
  ⟨(C7_link_without_attach_errors_keeps_valid ⟨5, 0, false⟩ GL_NO_ERROR
      (by decide) rfl rfl).1,
   (C7_link_without_attach_errors_keeps_valid ⟨5, 0, false⟩ GL_NO_ERROR
      (by decide) rfl rfl).2.1⟩

end GLSpec
